import Mathlib

/-!
Verification of the PenDonn radio scheduler / capture-crack-enumerate
pipeline.  Each definition below is a shallow embedding of a function of
the Python source (module and line references in the doc comments); the
theorems settle the specification claims about those functions.
-/

set_option maxRecDepth 4096

namespace PenDonn

/-! ## String helpers

Python's `pat in s` substring test and `.strip()` are modelled by
`strIn` and `stripStr`. -/

/-- `startsWithChars s pat` is true when `pat` is an initial segment of `s`. -/
def startsWithChars : List Char → List Char → Bool
  | _, [] => true
  | [], _ :: _ => false
  | a :: as, b :: bs => a == b && startsWithChars as bs

/-- `hasSubChars s pat`: `pat` occurs contiguously somewhere in `s`. -/
def hasSubChars : List Char → List Char → Bool
  | [], pat => pat.isEmpty
  | s@(_ :: as), pat => startsWithChars s pat || hasSubChars as pat

/-- Python's `pat in s` on strings. -/
def strIn (pat s : String) : Bool :=
  hasSubChars s.toList pat.toList

/-- Whitespace characters removed by Python's `str.strip()`. -/
def isSpaceChar (c : Char) : Bool :=
  c == ' ' || c == '\t' || c == '\n' || c == '\r'

/-- Python's `s.strip()`: drop leading and trailing whitespace. -/
def stripStr (s : String) : String :=
  String.mk (((s.toList.dropWhile isSpaceChar).reverse.dropWhile isSpaceChar).reverse)

/-! ## Encryption parsing (`src/core/wifi_scanner.py`, `_parse_encryption`,
lines 476-496)

The caller passes the stripped `Privacy` column; the function reads and
strips the `Authentication` column of the row itself. -/

/-- Embedding of `WiFiScanner._parse_encryption`.  `privacy` is the
stripped Privacy field, `rowAuth` the raw Authentication field. -/
def parse_encryption (privacy : String) (rowAuth : String) : String :=
  if privacy = "" ∨ privacy = "OPN" then "Open"
  else
    let auth := stripStr rowAuth
    if strIn "WPA2" privacy then "WPA2"
    else if strIn "WPA" privacy then
      (if strIn "WPA2" auth then "WPA/WPA2" else "WPA")
    else if strIn "WEP" privacy then "WEP"
    else if privacy ≠ "" then privacy else "Unknown"

/-- The mapping as the specification words it: `OPN`/empty → Open;
WPA2 in Privacy → WPA2, or WPA/WPA2 when WPA is also present in auth;
WPA only → WPA; WEP only → WEP; every other Privacy value → Unknown. -/
def spec_encryption_mapping (privacy : String) (rowAuth : String) : String :=
  if privacy = "" ∨ privacy = "OPN" then "Open"
  else
    let auth := stripStr rowAuth
    if strIn "WPA2" privacy then
      (if strIn "WPA" auth then "WPA/WPA2" else "WPA2")
    else if strIn "WPA" privacy then "WPA"
    else if strIn "WEP" privacy then "WEP"
    else "Unknown"

/-- C8 counterexample: for `Privacy = "FOO"` the code returns the raw
string `"FOO"`, while the spec's mapping demands `"Unknown"`; the claimed
mapping equality is false at this input. -/
theorem C8_encryption_counterexample :
    parse_encryption "FOO" "" ≠ spec_encryption_mapping "FOO" "" := by
  decide

/-- C8 (amended): the encryption parser maps `OPN`/empty → Open; any
Privacy containing `WPA2` → WPA2 (the Authentication column is ignored
in that case); Privacy containing `WPA` but not `WPA2` → WPA/WPA2 when
the stripped Authentication contains `WPA2`, else WPA; Privacy containing
`WEP` (and no WPA) → WEP; every other non-empty Privacy value is returned
verbatim, never mapped to Unknown. -/
theorem C8_encryption_amended :
    (∀ a, parse_encryption "" a = "Open") ∧
    (∀ a, parse_encryption "OPN" a = "Open") ∧
    (∀ p a, p ≠ "" → p ≠ "OPN" → strIn "WPA2" p = true →
      parse_encryption p a = "WPA2") ∧
    (∀ p a, p ≠ "" → p ≠ "OPN" → strIn "WPA2" p = false → strIn "WPA" p = true →
      parse_encryption p a = (if strIn "WPA2" (stripStr a) then "WPA/WPA2" else "WPA")) ∧
    (∀ p a, p ≠ "" → p ≠ "OPN" → strIn "WPA2" p = false → strIn "WPA" p = false →
      strIn "WEP" p = true → parse_encryption p a = "WEP") ∧
    (∀ p a, p ≠ "" → p ≠ "OPN" → strIn "WPA2" p = false → strIn "WPA" p = false →
      strIn "WEP" p = false → parse_encryption p a = p) := by
  refine ⟨fun a => rfl, fun a => rfl, ?_, ?_, ?_, ?_⟩
  · intro p a h1 h2 h3
    simp [parse_encryption, h1, h2, h3]
  · intro p a h1 h2 h3 h4
    simp [parse_encryption, h1, h2, h3, h4]
  · intro p a h1 h2 h3 h4 h5
    simp [parse_encryption, h1, h2, h3, h4, h5]
  · intro p a h1 h2 h3 h4 h5
    simp [parse_encryption, h1, h2, h3, h4, h5]

/-- Witness for C8 (amended) at concrete inputs. -/
theorem C8_encryption_amended_witness :
    parse_encryption "FOO" "x" = "FOO" ∧
    parse_encryption "WPA" " WPA2 PSK" = "WPA/WPA2" := by
  constructor
  · exact C8_encryption_amended.2.2.2.2.2 "FOO" "x"
      (by decide) (by decide) (by decide) (by decide) (by decide)
  · have h := C8_encryption_amended.2.2.2.1 "WPA" " WPA2 PSK"
      (by decide) (by decide) (by decide) (by decide)
    rw [h]
    decide

/-! ## Evidence store (`src/core/database.py`)

Rows are records; a table is a list of rows in insertion order.  SQL's
`CURRENT_TIMESTAMP` becomes an explicit `now : Nat` argument. -/

structure NetworkRow where
  ssid : String
  bssid : String
  channel : Int
  encryption : String
  signal_strength : Int
  first_seen : Nat
  last_seen : Nat
  is_whitelisted : Bool
  deriving Repr, DecidableEq

/-- Embedding of `Database.add_network` (lines 151-171): an insert with
`ON CONFLICT(bssid) DO UPDATE SET` signal, last_seen, channel,
encryption, ssid.  The schema gives `bssid` a UNIQUE constraint, so the
conflict target is row identity by bssid; `first_seen` and
`is_whitelisted` keep their column defaults from first insertion. -/
def add_network (tbl : List NetworkRow) (ssid bssid : String) (channel : Int)
    (encryption : String) (signal_strength : Int) (now : Nat) : List NetworkRow :=
  if tbl.any (fun r => r.bssid = bssid) then
    tbl.map (fun r =>
      if r.bssid = bssid then
        { r with signal_strength := signal_strength, last_seen := now,
                 channel := channel, encryption := encryption, ssid := ssid }
      else r)
  else
    tbl ++ [{ ssid := ssid, bssid := bssid, channel := channel,
              encryption := encryption, signal_strength := signal_strength,
              first_seen := now, last_seen := now, is_whitelisted := false }]

/-- Embedding of `Database.set_whitelist` (lines 201-208). -/
def set_whitelist (tbl : List NetworkRow) (bssid : String) (w : Bool) :
    List NetworkRow :=
  tbl.map (fun r => if r.bssid = bssid then { r with is_whitelisted := w } else r)

structure HandshakeRow where
  id : Nat
  network_id : Nat
  bssid : String
  ssid : String
  file_path : String
  capture_date : Nat
  status : String
  quality : String
  deriving Repr, DecidableEq

/-- Embedding of `Database.update_handshake_status` (lines 248-255): a
bare `UPDATE handshakes SET status = ? WHERE id = ?` — no transition
check of any kind. -/
def update_handshake_status (tbl : List HandshakeRow) (handshake_id : Nat)
    (status : String) : List HandshakeRow :=
  tbl.map (fun r => if r.id = handshake_id then { r with status := status } else r)

/-- The transition relation the specification allows:
pending→cracking and cracking→{cracked, failed}. -/
def allowed_transition (cur next : String) : Bool :=
  (cur = "pending" && next = "cracking") ||
  (cur = "cracking" && (next = "cracked" || next = "failed"))

structure CrackedRow where
  handshake_id : Nat
  ssid : String
  bssid : String
  password : String
  cracking_engine : String
  crack_time_seconds : Nat
  deriving Repr, DecidableEq

/-- Embedding of `Database.get_password_for_network` (lines 288-296):
`SELECT password ... WHERE bssid = ? LIMIT 1`. -/
def get_password_for_network (cracked : List CrackedRow) (bssid : String) :
    Option String :=
  (cracked.find? (fun r => r.bssid = bssid)).map (fun r => r.password)

/-- Embedding of `Database.add_cracked_password` (lines 258-277): insert
the key row unconditionally and set the handshake's status to cracked in
the same transaction.  There is no uniqueness constraint on `bssid`. -/
def add_cracked_password (handshakes : List HandshakeRow)
    (cracked : List CrackedRow) (handshake_id : Nat)
    (ssid bssid password engine : String) (crack_time : Nat) :
    List HandshakeRow × List CrackedRow :=
  (update_handshake_status handshakes handshake_id "cracked",
   cracked ++ [{ handshake_id := handshake_id, ssid := ssid, bssid := bssid,
                 password := password, cracking_engine := engine,
                 crack_time_seconds := crack_time }])

/-! ### C9: upsert semantics of `add_network` -/

/-- One `add_network` call's arguments apart from the shared bssid. -/
structure NetCall where
  ssid : String
  channel : Int
  encryption : String
  signal_strength : Int
  now : Nat
  deriving Repr, DecidableEq

/-- Run a sequence of `add_network` calls that all target one bssid. -/
def run_upserts (bssid : String) (tbl : List NetworkRow) :
    List NetCall → List NetworkRow
  | [] => tbl
  | c :: cs =>
      run_upserts bssid
        (add_network tbl c.ssid bssid c.channel c.encryption c.signal_strength c.now) cs

/-- The last element of `c :: cs` (Python-order fold of the call list). -/
def last_call (c : NetCall) : List NetCall → NetCall
  | [] => c
  | c' :: cs => last_call c' cs

/-- The mutation the conflict branch applies to the existing row. -/
def upsert_update (r : NetworkRow) (c : NetCall) : NetworkRow :=
  { r with ssid := c.ssid, channel := c.channel, encryption := c.encryption,
           signal_strength := c.signal_strength, last_seen := c.now }

theorem add_network_singleton (r : NetworkRow) (c : NetCall) (bssid : String)
    (h : r.bssid = bssid) :
    add_network [r] c.ssid bssid c.channel c.encryption c.signal_strength c.now =
      [upsert_update r c] := by
  simp [add_network, upsert_update, h]

theorem run_upserts_singleton (bssid : String) :
    ∀ (cs : List NetCall) (r : NetworkRow), r.bssid = bssid →
      run_upserts bssid [r] cs = [cs.foldl upsert_update r] := by
  intro cs
  induction cs with
  | nil => intro r _; rfl
  | cons c cs ih =>
      intro r h
      rw [run_upserts, add_network_singleton r c bssid h, List.foldl_cons]
      exact ih (upsert_update r c) h

theorem foldl_upsert_fields (cs : List NetCall) :
    ∀ (r : NetworkRow) (c : NetCall),
      cs.foldl upsert_update (upsert_update r c) =
        { ssid := (last_call c cs).ssid, bssid := r.bssid,
          channel := (last_call c cs).channel,
          encryption := (last_call c cs).encryption,
          signal_strength := (last_call c cs).signal_strength,
          first_seen := r.first_seen, last_seen := (last_call c cs).now,
          is_whitelisted := r.is_whitelisted } := by
  induction cs with
  | nil => intro r c; rfl
  | cons c' cs ih =>
      intro r c
      rw [List.foldl_cons]
      rw [ih (upsert_update r c) c']
      rfl

/-- C9: any sequence of `add_network` calls for one bssid, starting from
an empty table, leaves exactly one row; its ssid, channel, encryption,
signal and last_seen are those of the last call, while first_seen and
is_whitelisted keep the values set at first insertion (the first call's
timestamp, and the column default false). -/
theorem C9_upsert_last_write_wins (bssid : String) (c : NetCall)
    (cs : List NetCall) :
    run_upserts bssid [] (c :: cs) =
      [{ ssid := (last_call c cs).ssid, bssid := bssid,
         channel := (last_call c cs).channel,
         encryption := (last_call c cs).encryption,
         signal_strength := (last_call c cs).signal_strength,
         first_seen := c.now, last_seen := (last_call c cs).now,
         is_whitelisted := false }] := by
  have hfirst :
      run_upserts bssid [] (c :: cs) =
        run_upserts bssid
          [{ ssid := c.ssid, bssid := bssid, channel := c.channel,
             encryption := c.encryption, signal_strength := c.signal_strength,
             first_seen := c.now, last_seen := c.now, is_whitelisted := false }] cs := by
    rfl
  rw [hfirst, run_upserts_singleton bssid cs _ rfl]
  have hbase :
      ({ ssid := c.ssid, bssid := bssid, channel := c.channel,
         encryption := c.encryption, signal_strength := c.signal_strength,
         first_seen := c.now, last_seen := c.now,
         is_whitelisted := false } : NetworkRow) =
      upsert_update
        { ssid := c.ssid, bssid := bssid, channel := c.channel,
          encryption := c.encryption, signal_strength := c.signal_strength,
          first_seen := c.now, last_seen := c.now, is_whitelisted := false } c := by
    rfl
  rw [hbase, foldl_upsert_fields cs _ c]

/-! ### C5: `update_handshake_status` performs no transition checking -/

/-- A concrete handshake row already in terminal status `cracked`. -/
def c5_row : HandshakeRow :=
  { id := 1, network_id := 1, bssid := "aa:bb:cc:dd:ee:01", ssid := "TestNet",
    file_path := "./handshakes/h1.cap", capture_date := 100,
    status := "cracked", quality := "good" }

/-- C5 counterexample: cracked→pending is not an allowed transition, yet
`update_handshake_status` rewrites the row instead of erroring and
leaving it unchanged. -/
theorem C5_transition_counterexample :
    allowed_transition "cracked" "pending" = false ∧
    update_handshake_status [c5_row] 1 "pending" ≠ [c5_row] := by
  decide

/-- C5 (amended): `update_handshake_status` unconditionally overwrites
the status of the row with the matching id — for every (current,
requested) pair, allowed or not — and leaves all other rows untouched;
no StoreConflict error path exists. -/
theorem C5_status_update_amended (tbl : List HandshakeRow) (handshake_id : Nat)
    (status : String) (r : HandshakeRow) (hr : r ∈ tbl) :
    (r.id = handshake_id →
      { r with status := status } ∈ update_handshake_status tbl handshake_id status) ∧
    (r.id ≠ handshake_id → r ∈ update_handshake_status tbl handshake_id status) := by
  constructor
  · intro hid
    have := List.mem_map_of_mem
      (fun x : HandshakeRow =>
        if x.id = handshake_id then { x with status := status } else x) hr
    simpa [update_handshake_status, hid] using this
  · intro hid
    have := List.mem_map_of_mem
      (fun x : HandshakeRow =>
        if x.id = handshake_id then { x with status := status } else x) hr
    simpa [update_handshake_status, hid] using this

/-- Witness for C5 (amended) at the concrete cracked row. -/
theorem C5_status_update_amended_witness :
    ({ c5_row with status := "pending" } : HandshakeRow) ∈
      update_handshake_status [c5_row] 1 "pending" := by
  exact (C5_status_update_amended [c5_row] 1 "pending" c5_row (by decide)).1 (by decide)

/-! ## Crack pool (`src/core/cracker.py`)

Sequential model of the queue monitor and one crack worker.  The
engines' combined verdict for a handshake (lines 191-222: first engine
returning a password wins) is abstracted as an oracle from handshake id
to an optional (password, engine, crack_time) triple. -/

structure CrackerState where
  handshakes : List HandshakeRow
  cracked : List CrackedRow
  crack_queue : List HandshakeRow
  active_ids : List Nat
  deriving Repr, DecidableEq

/-- Insertion sort by capture_date, modelling `ORDER BY capture_date ASC`. -/
def insertByDate (h : HandshakeRow) : List HandshakeRow → List HandshakeRow
  | [] => [h]
  | x :: xs =>
      if h.capture_date < x.capture_date then h :: x :: xs
      else x :: insertByDate h xs

def sortByDate : List HandshakeRow → List HandshakeRow
  | [] => []
  | x :: xs => insertByDate x (sortByDate xs)

/-- Embedding of `Database.get_pending_handshakes` (lines 226-237). -/
def get_pending_handshakes (handshakes : List HandshakeRow) : List HandshakeRow :=
  sortByDate (handshakes.filter (fun r => r.status = "pending"))

/-- Embedding of `PasswordCracker.queue_handshake` (lines 148-170): skip
when a password is already stored for the bssid, or when the handshake
id is already in-flight; otherwise enqueue and mark in-flight. -/
def queue_handshake (st : CrackerState) (h : HandshakeRow) : CrackerState :=
  if (get_password_for_network st.cracked h.bssid).isSome then st
  else if h.id ∈ st.active_ids then st
  else { st with crack_queue := st.crack_queue ++ [h],
                 active_ids := st.active_ids ++ [h.id] }

/-- Embedding of one `_queue_monitor` poll (lines 127-146): every pending
handshake not already in-flight is offered to `queue_handshake`. -/
def queue_monitor_pass (st : CrackerState) : CrackerState :=
  (get_pending_handshakes st.handshakes).foldl
    (fun s h => if h.id ∈ s.active_ids then s else queue_handshake s h) st

/-- Embedding of one iteration of `_crack_worker` (lines 172-240): pop a
handshake, set status cracking, run the engines; on success insert the
CrackedKey via `add_cracked_password` — with no re-check of the key
store — and set status cracked; on failure set status failed. -/
def crack_worker_step (st : CrackerState)
    (engineResult : Nat → Option (String × String × Nat)) : CrackerState :=
  match st.crack_queue with
  | [] => st
  | h :: rest =>
    let st1 : CrackerState :=
      { st with crack_queue := rest,
                handshakes := update_handshake_status st.handshakes h.id "cracking" }
    match engineResult h.id with
    | some (password, engine, t) =>
        let inserted := add_cracked_password st1.handshakes st1.cracked h.id
          h.ssid h.bssid password engine t
        { st1 with handshakes := update_handshake_status inserted.1 h.id "cracked",
                   cracked := inserted.2,
                   active_ids := st1.active_ids.filter (fun i => i ≠ h.id) }
    | none =>
        { st1 with handshakes := update_handshake_status st1.handshakes h.id "failed",
                   active_ids := st1.active_ids.filter (fun i => i ≠ h.id) }

/-- Number of CrackedKey rows stored for one bssid. -/
def count_keys_for (cracked : List CrackedRow) (bssid : String) : Nat :=
  (cracked.filter (fun r => r.bssid = bssid)).length

/-! ### C4: two pending handshakes for one bssid yield two CrackedKey rows -/

def c4_h1 : HandshakeRow :=
  { id := 1, network_id := 1, bssid := "aa:bb:cc:dd:ee:01", ssid := "TestNet",
    file_path := "./handshakes/h1.cap", capture_date := 100,
    status := "pending", quality := "good" }

def c4_h2 : HandshakeRow :=
  { id := 2, network_id := 1, bssid := "aa:bb:cc:dd:ee:01", ssid := "TestNet",
    file_path := "./handshakes/h2.cap", capture_date := 200,
    status := "pending", quality := "good" }

def c4_start : CrackerState :=
  { handshakes := [c4_h1, c4_h2], cracked := [], crack_queue := [],
    active_ids := [] }

/-- Every engine run recovers the network's password. -/
def c4_oracle : Nat → Option (String × String × Nat) :=
  fun _ => some ("hunter2", "john", 5)

/-- One monitor poll queues both pending handshakes (no key exists yet),
then the worker drains them one after the other. -/
def c4_final : CrackerState :=
  crack_worker_step (crack_worker_step (queue_monitor_pass c4_start) c4_oracle)
    c4_oracle

/-- C4 counterexample: after the trace above the store holds two
CrackedKey rows for the same bssid — the at-most-one invariant is not
preserved by the code's operations. -/
theorem C4_duplicate_key_counterexample :
    ¬ count_keys_for c4_final.cracked "aa:bb:cc:dd:ee:01" ≤ 1 := by
  decide

/-- C4 (amended): the first stored key suppresses only handshakes offered
to `queue_handshake` after it exists — such a call is a no-op — but
handshakes queued before the first success each insert their own
CrackedKey row, so several rows per bssid are reachable. -/
theorem C4_queue_suppression_amended (st : CrackerState) (h : HandshakeRow)
    (hk : (get_password_for_network st.cracked h.bssid).isSome) :
    queue_handshake st h = st := by
  simp [queue_handshake, hk]

/-- Witness for C4 (amended): once the first key for the bssid is stored,
re-offering a pending handshake for it changes nothing. -/
theorem C4_queue_suppression_amended_witness :
    queue_handshake c4_final c4_h2 = c4_final := by
  exact C4_queue_suppression_amended c4_final c4_h2 (by decide)

/-! ## Interface resolution (`src/core/interface_manager.py`,
`resolve_interfaces`, lines 60-117) -/

/-- Python truthiness of an optional string config value. -/
def optTruthy : Option String → Bool
  | none => false
  | some s => s ≠ ""

/-- ASCII lowercase, modelling Python's `str.lower()` on MAC strings. -/
def lowerChar (c : Char) : Char :=
  if 65 ≤ c.toNat ∧ c.toNat ≤ 90 then Char.ofNat (c.toNat + 32) else c

def lowerStr (s : String) : String :=
  String.mk (s.toList.map lowerChar)

/-- Dictionary `.get` on the MAC → interface-name mapping. -/
def macLookup (m : List (String × String)) (mac : String) : Option String :=
  (m.find? (fun p => p.1 = mac)).map (fun p => p.2)

structure WifiConfig where
  monitor_mac : Option String
  attack_mac : Option String
  management_mac : Option String
  monitor_interface : Option String
  attack_interface : Option String
  management_interface : Option String
  deriving Repr, DecidableEq

/-- Result of `resolve_interfaces`.  The boolean records whether the
name-based fallback (which the source accompanies with a warning log)
was taken.  `hardError` is the outcome the specification demands on a
failed MAC lookup; the source never produces it. -/
inductive ResolveOutcome where
  | ok (monitor attack management : String) (fellBackToNames : Bool)
  | hardError
  deriving Repr, DecidableEq

/-- Embedding of `resolve_interfaces`: with all three MAC identities
configured, look each up in the current MAC→name mapping; when any
lookup fails, fall back to the name-based config (defaults wlan0/wlan1/
wlan2) with a warning; without MAC config, use the name-based config
directly, also with a warning. -/
def resolve_interfaces (cfg : WifiConfig) (macToIface : List (String × String)) :
    ResolveOutcome :=
  if optTruthy cfg.monitor_mac && optTruthy cfg.attack_mac &&
      optTruthy cfg.management_mac then
    let m := macLookup macToIface (lowerStr (cfg.monitor_mac.getD ""))
    let a := macLookup macToIface (lowerStr (cfg.attack_mac.getD ""))
    let g := macLookup macToIface (lowerStr (cfg.management_mac.getD ""))
    if optTruthy m && optTruthy a && optTruthy g then
      ResolveOutcome.ok (m.getD "") (a.getD "") (g.getD "") false
    else
      ResolveOutcome.ok (cfg.monitor_interface.getD "wlan0")
        (cfg.attack_interface.getD "wlan1")
        (cfg.management_interface.getD "wlan2") true
  else
    ResolveOutcome.ok (cfg.monitor_interface.getD "wlan0")
      (cfg.attack_interface.getD "wlan1")
      (cfg.management_interface.getD "wlan2") true

/-! ### C3: a failed MAC lookup falls back to names instead of erroring -/

def c3_cfg : WifiConfig :=
  { monitor_mac := some "AA:00:00:00:00:01",
    attack_mac := some "AA:00:00:00:00:02",
    management_mac := some "AA:00:00:00:00:03",
    monitor_interface := some "wlan0",
    attack_interface := some "wlan1",
    management_interface := some "wlan2" }

/-- Only the monitor MAC is present on the host. -/
def c3_map : List (String × String) := [("aa:00:00:00:00:01", "wlan5")]

/-- C3 counterexample: MAC identities are configured for all three roles
and two lookups fail, yet `resolve_interfaces` proceeds with the legacy
name-based fallback instead of returning a hard error. -/
theorem C3_no_hard_error_counterexample :
    resolve_interfaces c3_cfg c3_map =
      ResolveOutcome.ok "wlan0" "wlan1" "wlan2" true ∧
    resolve_interfaces c3_cfg c3_map ≠ ResolveOutcome.hardError := by
  decide

/-- C3 (amended): when MAC identities are configured and any lookup
fails to resolve, `resolve_interfaces` does not hard-error; it falls
back to the name-based config values (defaults wlan0/wlan1/wlan2) and
flags the warning-logged fallback path. -/
theorem C3_mac_fallback_amended (cfg : WifiConfig)
    (macToIface : List (String × String))
    (hm : optTruthy cfg.monitor_mac = true)
    (ha : optTruthy cfg.attack_mac = true)
    (hg : optTruthy cfg.management_mac = true)
    (hfail : (optTruthy (macLookup macToIface (lowerStr (cfg.monitor_mac.getD ""))) &&
      optTruthy (macLookup macToIface (lowerStr (cfg.attack_mac.getD ""))) &&
      optTruthy (macLookup macToIface (lowerStr (cfg.management_mac.getD "")))) = false) :
    resolve_interfaces cfg macToIface =
      ResolveOutcome.ok (cfg.monitor_interface.getD "wlan0")
        (cfg.attack_interface.getD "wlan1")
        (cfg.management_interface.getD "wlan2") true := by
  simp only [resolve_interfaces, hm, ha, hg, hfail]
  simp

/-- Witness for C3 (amended) at the concrete config and host mapping. -/
theorem C3_mac_fallback_amended_witness :
    resolve_interfaces c3_cfg c3_map =
      ResolveOutcome.ok "wlan0" "wlan1" "wlan2" true := by
  exact C3_mac_fallback_amended c3_cfg c3_map (by decide) (by decide) (by decide)
    (by decide)

/-! ## Scan loop (`src/core/wifi_scanner.py`)

Per-AP-row processing of `_parse_scan_results` (lines 273-397) and the
candidate prioritisation of `_parse_clients_and_prioritize`
(lines 399-474). -/

/-- `.get(key, 0)`-style lookup in a string-keyed Nat dictionary. -/
def lookupNatD (m : List (String × Nat)) (k : String) (d : Nat) : Nat :=
  ((m.find? (fun p => p.1 = k)).map (fun p => p.2)).getD d

/-- Python `int(s) if s and s != sentinel else default`, with the
surrounding try/except mapping parse failures to the default
(lines 320-330). -/
def parse_int_field (s : String) (sentinel : String) (default : Int) : Int :=
  if s = "" ∨ s = sentinel then default else (s.toInt?).getD default

/-- The capture-candidate decision of lines 369-385: WPA/WPA2 privacy,
no capture already running for this bssid, the 300-second cooldown
elapsed, and the whitelist policy (empty whitelist permits all).  The
CrackedKey store is not consulted anywhere in this path. -/
def capture_candidate (enc_type bssid essid : String)
    (active_captures : List String) (last_capture_time : List (String × Nat))
    (now cooldown : Nat) (whitelist_ssids : List String) : Bool :=
  if strIn "WPA" enc_type = true ∧ bssid ∉ active_captures then
    if now - lookupNatD last_capture_time bssid 0 < cooldown then false
    else if whitelist_ssids = [] ∨ essid ∈ whitelist_ssids then true
    else false
  else false

/-- The best-candidate fold of lines 441-471.  The source scores
`client_count * 10 + signal / 10` in floating point; the score here is
that value scaled by 10 so it stays in ℤ, which preserves the strict
comparison against the running best (initially -1000, scaled -10000). -/
def prioritize_best (candidates : List (String × Int))
    (network_clients : List (String × Nat)) : Option String :=
  (candidates.foldl
    (fun best c =>
      let score : Int := (lookupNatD network_clients c.1 0 : Int) * 100 + c.2
      if score > best.2 then (some c.1, score) else best)
    ((none : Option String), (-10000 : Int))).1

/-! ### C6: a cracked BSSID is re-selected once the cooldown elapses -/

/-- A CrackedKey already stored for the target bssid. -/
def c6_cracked : List CrackedRow :=
  [{ handshake_id := 1, ssid := "TestNet", bssid := "aa:bb:cc:dd:ee:01",
     password := "hunter2", cracking_engine := "john", crack_time_seconds := 5 }]

/-- C6 counterexample: the bssid has a stored CrackedKey, yet with the
300-second cooldown elapsed the row is marked a capture candidate again
and the prioritiser selects it for capture. -/
theorem C6_cracked_reselected_counterexample :
    (get_password_for_network c6_cracked "aa:bb:cc:dd:ee:01").isSome = true ∧
    capture_candidate "WPA2" "aa:bb:cc:dd:ee:01" "TestNet" [] [] 1000 300 [] = true ∧
    prioritize_best [("aa:bb:cc:dd:ee:01", -45)] [] = some "aa:bb:cc:dd:ee:01" := by
  decide

/-- C6 (amended): a BSSID with a stored CrackedKey is not permanently
ineligible; candidate selection never consults the key store and applies
only the 300-second cooldown together with the WPA, no-active-capture
and whitelist checks — within the cooldown the BSSID is skipped, and as
soon as it elapses the BSSID is eligible again. -/
theorem C6_cooldown_only_amended (enc_type bssid essid : String)
    (active_captures : List String) (last_capture_time : List (String × Nat))
    (now cooldown : Nat) (whitelist_ssids : List String) :
    (now - lookupNatD last_capture_time bssid 0 < cooldown →
      capture_candidate enc_type bssid essid active_captures last_capture_time
        now cooldown whitelist_ssids = false) ∧
    (strIn "WPA" enc_type = true → bssid ∉ active_captures →
      ¬ now - lookupNatD last_capture_time bssid 0 < cooldown →
      (whitelist_ssids = [] ∨ essid ∈ whitelist_ssids) →
      capture_candidate enc_type bssid essid active_captures last_capture_time
        now cooldown whitelist_ssids = true) := by
  constructor
  · intro hcool
    by_cases hwpa : strIn "WPA" enc_type = true ∧ bssid ∉ active_captures
    · simp [capture_candidate, hwpa, hcool]
    · simp [capture_candidate, hwpa]
  · intro hwpa hact hcool hwl
    simp [capture_candidate, hwpa, hact, hcool, hwl]

/-- Witness for C6 (amended): inside the cooldown the cracked BSSID is
skipped; after it, the same BSSID is a candidate again. -/
theorem C6_cooldown_only_amended_witness :
    capture_candidate "WPA2" "aa:bb:cc:dd:ee:01" "TestNet" []
      [("aa:bb:cc:dd:ee:01", 900)] 1000 300 [] = false ∧
    capture_candidate "WPA2" "aa:bb:cc:dd:ee:01" "TestNet" []
      [("aa:bb:cc:dd:ee:01", 900)] 1300 300 [] = true := by
  constructor
  · exact (C6_cooldown_only_amended "WPA2" "aa:bb:cc:dd:ee:01" "TestNet" []
      [("aa:bb:cc:dd:ee:01", 900)] 1000 300 []).1 (by decide)
  · exact (C6_cooldown_only_amended "WPA2" "aa:bb:cc:dd:ee:01" "TestNet" []
      [("aa:bb:cc:dd:ee:01", 900)] 1300 300 []).2 (by decide) (by decide)
      (by decide) (by decide)

/-! ### C10: rows with empty BSSID or ESSID are skipped entirely -/

/-- One parsed AP row of the airodump CSV. -/
structure ApRow where
  bssid : String
  essid : String
  channel : String
  privacy : String
  power : String
  authentication : String
  deriving Repr, DecidableEq

/-- One entry of the scanner's in-memory `self.networks` dict. -/
structure MemNet where
  ssid : String
  bssid : String
  channel : Int
  encryption : String
  signal : Int
  last_seen : Nat
  capture_candidate : Bool
  deriving Repr, DecidableEq

/-- The scanner state touched by `_parse_scan_results` row processing. -/
structure ScanState where
  mem : List MemNet
  db_networks : List NetworkRow
  active_captures : List String
  last_capture_time : List (String × Nat)
  deriving Repr, DecidableEq

/-- Embedding of the per-row body of `_parse_scan_results`
(lines 306-385): strip the fields; skip the row when the stripped BSSID
or ESSID is empty (`continue` at line 315); otherwise parse encryption,
signal and channel, insert or update the in-memory entry, upsert the
store (`db.add_network`), apply the whitelist flag when a whitelist is
configured, and mark the capture-candidate flag per the cooldown and
whitelist rules. -/
def process_ap_row (st : ScanState) (row : ApRow) (now : Nat)
    (whitelist : List String) (cooldown : Nat) : ScanState :=
  let bssid := stripStr row.bssid
  let essid := stripStr row.essid
  let channel := stripStr row.channel
  let encryption := stripStr row.privacy
  let power := stripStr row.power
  if bssid = "" ∨ essid = "" then st
  else
    let enc_type := parse_encryption encryption row.authentication
    let signal := parse_int_field power "-1" (-100)
    let channel_num := parse_int_field channel "-1" 0
    let db := add_network st.db_networks essid bssid channel_num enc_type signal now
    let db := if whitelist ≠ [] then set_whitelist db bssid (essid ∈ whitelist) else db
    let st1 : ScanState :=
      if st.mem.any (fun m => m.bssid = bssid) then
        { st with
          mem := st.mem.map (fun m =>
            if m.bssid = bssid then
              { m with signal := signal, last_seen := now,
                       channel := channel_num, encryption := enc_type }
            else m),
          db_networks := db }
      else
        let entry : MemNet :=
          { ssid := essid, bssid := bssid, channel := channel_num,
            encryption := enc_type, signal := signal, last_seen := now,
            capture_candidate := false }
        { st with mem := st.mem ++ [entry], db_networks := db }
    if capture_candidate enc_type bssid essid st1.active_captures
        st1.last_capture_time now cooldown whitelist then
      { st1 with mem := st1.mem.map (fun m =>
          if m.bssid = bssid then { m with capture_candidate := true } else m) }
    else st1

/-- C10: a row whose BSSID strips to empty, or whose ESSID strips to
empty (a hidden network), is skipped entirely — the in-memory dict, the
networks table and every capture-candidate flag are left exactly as they
were. -/
theorem C10_empty_fields_skip_row (st : ScanState) (row : ApRow) (now : Nat)
    (whitelist : List String) (cooldown : Nat)
    (h : stripStr row.bssid = "" ∨ stripStr row.essid = "") :
    process_ap_row st row now whitelist cooldown = st := by
  unfold process_ap_row
  simp only [h, if_pos]

/-- Witness for C10 at a hidden-network row (whitespace-only ESSID). -/
theorem C10_empty_fields_skip_row_witness :
    process_ap_row
      { mem := [], db_networks := [], active_captures := [],
        last_capture_time := [] }
      { bssid := "aa:bb:cc:dd:ee:07", essid := "   ", channel := "6",
        privacy := "WPA2", power := "-45", authentication := "PSK" }
      1000 [] 300 =
      { mem := [], db_networks := [], active_captures := [],
        last_capture_time := [] } := by
  exact C10_empty_fields_skip_row _ _ 1000 [] 300 (Or.inr (by decide))

/-! ## Crack-engine capture-file gate (`src/core/cracker.py`)

`_crack_with_john` (lines 242-261), `_crack_with_hashcat`
(lines 372-399) and `_crack_with_aircrack` (lines 521-541) share an
identical prelude: wait up to 10 seconds for the capture file, then
return None when the file is absent or smaller than 1000 bytes, and only
otherwise proceed to invoke the external tooling.  The file system is
abstracted to `Option Nat` (absent, or present with a size), and the
tool run to an optional recovered password. -/

structure EngineOutcome where
  invoked_tool : Bool
  password : Option String
  deriving Repr, DecidableEq

/-- The shared prelude's decision: proceed only when the file exists
with size at least 1000 bytes. -/
def capture_file_gate (file_size : Option Nat) : Bool :=
  match file_size with
  | none => false
  | some n => decide (¬ n < 1000)

/-- `_crack_with_john` reduced to its gate and tool outcome. -/
def crack_with_john (file_size : Option Nat) (tool_result : Option String) :
    EngineOutcome :=
  if capture_file_gate file_size then
    { invoked_tool := true, password := tool_result }
  else
    { invoked_tool := false, password := none }

/-- `_crack_with_hashcat` reduced to its gate and tool outcome. -/
def crack_with_hashcat (file_size : Option Nat) (tool_result : Option String) :
    EngineOutcome :=
  if capture_file_gate file_size then
    { invoked_tool := true, password := tool_result }
  else
    { invoked_tool := false, password := none }

/-- `_crack_with_aircrack` reduced to its gate and tool outcome. -/
def crack_with_aircrack (file_size : Option Nat) (tool_result : Option String) :
    EngineOutcome :=
  if capture_file_gate file_size then
    { invoked_tool := true, password := tool_result }
  else
    { invoked_tool := false, password := none }

/-- The worker's final status write (lines 224-229): failed exactly when
no engine produced a password. -/
def worker_final_status (engine_passwords : List (Option String)) : String :=
  if engine_passwords.any (fun r => r.isSome) then "cracked" else "failed"

/-- C7 counterexample: a 1010-byte capture file is strictly below the
claimed 1024-byte threshold, yet every engine proceeds to invoke its
external cracking tool — the code's threshold is 1000 bytes, not 1 KiB. -/
theorem C7_size_gate_counterexample :
    1010 < 1024 ∧
    (crack_with_john (some 1010) none).invoked_tool = true ∧
    (crack_with_hashcat (some 1010) none).invoked_tool = true ∧
    (crack_with_aircrack (some 1010) none).invoked_tool = true := by
  decide

/-- C7 (amended): for a capture file that is absent or smaller than
1000 bytes after the wait, each engine aborts without invoking its
external tool and returns no password, and the worker then marks the
handshake failed. -/
theorem C7_small_file_amended (file_size : Option Nat)
    (rj rh ra : Option String)
    (hsmall : ∀ n, file_size = some n → n < 1000) :
    crack_with_john file_size rj = { invoked_tool := false, password := none } ∧
    crack_with_hashcat file_size rh = { invoked_tool := false, password := none } ∧
    crack_with_aircrack file_size ra = { invoked_tool := false, password := none } ∧
    worker_final_status
      [(crack_with_john file_size rj).password,
       (crack_with_hashcat file_size rh).password,
       (crack_with_aircrack file_size ra).password] = "failed" := by
  have hgate : capture_file_gate file_size = false := by
    cases file_size with
    | none => rfl
    | some n =>
        have := hsmall n rfl
        simp [capture_file_gate, this]
  refine ⟨?_, ?_, ?_, ?_⟩ <;>
    simp [crack_with_john, crack_with_hashcat, crack_with_aircrack,
      worker_final_status, hgate]

/-- Witness for C7 (amended) at a 999-byte capture file. -/
theorem C7_small_file_amended_witness :
    crack_with_john (some 999) (some "never") =
      { invoked_tool := false, password := none } ∧
    worker_final_status
      [(crack_with_john (some 999) (some "never")).password,
       (crack_with_hashcat (some 999) none).password,
       (crack_with_aircrack (some 999) none).password] = "failed" := by
  have h := C7_small_file_amended (some 999) (some "never") none none
    (by intro n hn; cases hn; decide)
  exact ⟨h.1, h.2.2.2⟩

/-! ## Enumeration phase (`src/core/enumerator.py`) and scanner
coordination (`src/core/wifi_scanner.py`, lines 68-115)

The observable radio-coordination actions of an enumeration run are
modelled as an event list; external-world outcomes (subprocess results)
as an environment record. -/

inductive EnumEvent where
  | pauseScanner    -- wifi_scanner.pause_for_enumeration()
  | nicManaged      -- attack NIC switched from monitor to managed mode
  | associate       -- wpa_supplicant started on the attack NIC
  | restoreMonitor  -- attack NIC switched back to monitor mode
  | resumeScanner   -- wifi_scanner.resume_from_enumeration()
  deriving Repr, DecidableEq

structure ConnectEnv where
  mode_switch_fails : Bool  -- a check=True mode-switch call raised (caught line 359)
  dhcp_tool_found : Bool    -- dhcpcd or dhclient present
  dhcp_times_out : Bool     -- TimeoutExpired from the DHCP client (line 353)
  got_inet : Bool           -- "inet " present in `ip addr show` output
  deriving Repr, DecidableEq

/-- Embedding of `NetworkEnumerator._connect_to_network` (lines 273-361):
the events it performs and the boolean it returns.  When a scanner was
handed to the enumerator, `pause_for_enumeration` is its very first
action, before any mode switch or association. -/
def connect_to_network (scanner_present : Bool) (env : ConnectEnv) :
    List EnumEvent × Bool :=
  let pre := if scanner_present then [EnumEvent.pauseScanner] else []
  if env.mode_switch_fails then (pre, false)
  else
    let ev := pre ++ [EnumEvent.nicManaged, EnumEvent.associate]
    if ¬ env.dhcp_tool_found then (ev, false)
    else if env.dhcp_times_out then (ev, false)
    else (ev, env.got_inet)

structure EnumEnv where
  safety_check_raises : Bool  -- the iwgetid probe raised (caught at line 183)
  mgmt_on_target_ssid : Bool  -- iwgetid returncode 0 and stdout.strip() == ssid
  connect : ConnectEnv
  deriving Repr, DecidableEq

structure EnumTrace where
  events : List EnumEvent
  scan_status : String  -- status written to the Scan row on the exit path
  results_tag : String  -- marker recorded in the partial results blob
  deriving Repr, DecidableEq

/-- Embedding of `NetworkEnumerator._perform_enumeration`
(lines 161-271).  `_connect_to_network` returns a bare bool, so the
tuple unpacking `connection_success, error_msg = ...` at line 195 raises
`TypeError` on every run that passes the safety check; the outer handler
(line 262) records the failed Scan with the partial results, and the
function's `finally` only removes the scan from `active_scans` — the
`_disconnect_from_network` call at line 260 is unreachable. -/
def perform_enumeration (scanner_present : Bool) (env : EnumEnv) : EnumTrace :=
  if ¬ env.safety_check_raises ∧ env.mgmt_on_target_ssid then
    { events := [], scan_status := "failed", results_tag := "SafetyCheck" }
  else
    let connect_run := connect_to_network scanner_present env.connect
    { events := connect_run.1, scan_status := "failed",
      results_tag := "TypeError" }

/-- Embedding of `NetworkEnumerator._disconnect_from_network`
(lines 363-415): its own `finally` always restores monitor mode and
resumes the scanner when one is present — but `_perform_enumeration`
never reaches it. -/
def disconnect_from_network (scanner_present : Bool) : List EnumEvent :=
  [EnumEvent.restoreMonitor] ++
    (if scanner_present then [EnumEvent.resumeScanner] else [])

/-- Scanner coordination state (`WiFiScanner`, lines 50-61). -/
structure ScannerCoord where
  enumeration_active : Bool
  active_captures_count : Nat
  scan_process_running : Bool
  deriving Repr, DecidableEq

/-- Embedding of `WiFiScanner.pause_for_enumeration` (lines 68-100):
no-op when already active; otherwise set the flag, stop the scan child
and tear down every active capture. -/
def pause_for_enumeration (s : ScannerCoord) : ScannerCoord :=
  if s.enumeration_active then s
  else { enumeration_active := true, active_captures_count := 0,
         scan_process_running := false }

/-- Embedding of `WiFiScanner.resume_from_enumeration` (lines 102-115). -/
def resume_from_enumeration (s : ScannerCoord) : ScannerCoord :=
  if ¬ s.enumeration_active then s
  else { s with enumeration_active := false }

/-! ### C1: no exit path of `_perform_enumeration` restores the NIC -/

/-- C1: on every exit path — safety-check refusal or the unconditional
`TypeError` of line 195 — the Scan row is updated to failed with the
partial results, but the attack NIC is never switched back to monitor
mode and `resume_from_enumeration` is never invoked: the
NIC-restoration/release step is absent from every trace, not present on
all of them as claimed. -/
theorem C1_enumeration_never_restores (scanner_present : Bool) (env : EnumEnv) :
    (perform_enumeration scanner_present env).scan_status = "failed" ∧
    EnumEvent.restoreMonitor ∉ (perform_enumeration scanner_present env).events ∧
    EnumEvent.resumeScanner ∉ (perform_enumeration scanner_present env).events := by
  unfold perform_enumeration connect_to_network
  cases env with
  | mk sraises mgmt cenv =>
      cases cenv with
      | mk msf dtf dto gi =>
          cases sraises <;> cases mgmt <;> cases msf <;> cases dtf <;>
            cases dto <;> cases gi <;> cases scanner_present <;> decide

/-! ### C2: the main wiring never pauses the scanner before associating -/

/-- `PenDonn.__init__` (src/main.py, line 88) constructs the enumerator
as `NetworkEnumerator(self.config, self.db, self.plugin_manager)` —
without the wifi scanner — so `self.wifi_scanner` is None inside the
enumerator. -/
def main_wiring_scanner_present : Bool := false

/-- An ordinary enumeration environment: safety check passes and the
connection phase runs to association. -/
def c2_env : EnumEnv :=
  { safety_check_raises := false, mgmt_on_target_ssid := false,
    connect := { mode_switch_fails := false, dhcp_tool_found := true,
                 dhcp_times_out := false, got_inet := true } }

/-- C2: under the orchestrator's wiring, an enumeration run associates
the attack NIC (wpa_supplicant is started) without
`pause_for_enumeration` ever being called — even though
`pause_for_enumeration` itself would establish exactly the claimed
invariant state (flag set, zero captures, scan child stopped). -/
theorem C2_no_pause_under_main_wiring :
    EnumEvent.pauseScanner ∉
      (perform_enumeration main_wiring_scanner_present c2_env).events ∧
    EnumEvent.associate ∈
      (perform_enumeration main_wiring_scanner_present c2_env).events ∧
    pause_for_enumeration
      { enumeration_active := false, active_captures_count := 1,
        scan_process_running := true } =
      { enumeration_active := true, active_captures_count := 0,
        scan_process_running := false } := by
  decide

end PenDonn
